import Mathlib

/-!
Verification of the davil visualization controllers.

Shallow embedding of three source files:
  * src/mymodule/frontend/view/controllers/cluster_controller.py
  * src/mymodule/frontend/view/controllers/mapper_controller.py
  * src/mymodule/model/axisgenerator.py

Python state is passed explicitly; a raised exception is an error value
carried next to the state reached at the raise point (so mutations that
happened before the raise are kept, matching Python semantics).  The
external clustering and mapping algorithms are opaque collaborators and
are passed as function arguments.  pandas dataframes are modelled as
lists of named rows or named columns of integer values.
-/

/-! ## Cluster controller data model -/

/-- Dataframe of samples times named axes, column major: `index` holds the
sample identifiers (the pandas index), each column carries the axis name
and its values down the samples. -/
structure DimColumn where
  axisId : String
  values : List Int
deriving DecidableEq, Repr

/-- Dimension-values dataframe: pandas index plus named columns. -/
structure DimValuesDF where
  index : List String
  columns : List DimColumn
deriving DecidableEq, Repr

/-- The shared plot data source of the cluster controller, reduced to the
column the controller writes: the pandas Series assigned to
source.data at key color, kept as its values together with its index. -/
structure ClusterSource where
  colorValues : List String
  colorIndex : List String
deriving DecidableEq, Repr

/-- State of ClusterController: the active algorithm id (held by the
AbstractAlgorithmController base), the clustering cache dictionary
mapping (algorithm id, cluster count) to labels, the label palette, the
optional plot source and the current cluster count.  The cache is a
most-recent-first association list; the controller only ever inserts
keys that are absent, so this matches python dict lookup. -/
structure ClusterState where
  activeAlgorithmId : String
  clusteringDic : List ((String × Int) × List Nat)
  labelColors : List String
  source : Option ClusterSource
  nClusters : Int
deriving DecidableEq, Repr

/-- Python dict lookup on the association-list cache. -/
def dictFind (key : String × Int) : List ((String × Int) × List Nat) → Option (List Nat)
  | [] => none
  | (k, v) :: rest => if k = key then some v else dictFind key rest

/-- DEFAULT_LABEL_COLORS from cluster_controller.py (7 colors). -/
def DEFAULT_LABEL_COLORS : List String :=
  ["red", "navy", "green", "orange", "grey", "yellow", "black"]

/-- Embeds the list comprehension building colors in update_clusters:
self._label_colors[i] for i in labels, evaluated left to right; a label
index out of range makes the whole comprehension raise IndexError,
modelled as none.  Labels are cluster indices, hence naturals. -/
def colorsOf (cols : List String) : List Nat → Option (List String)
  | [] => some []
  | i :: rest =>
    match cols[i]? with
    | none => none
    | some c =>
      match colorsOf cols rest with
      | none => none
      | some cs => some (c :: cs)

/-- Result of one update_clusters call: the state reached (cache mutations
kept even when the color step raises), whether the clustering algorithm
was invoked, and the uncaught exception if one was raised. -/
structure UCResult where
  state : ClusterState
  invoked : Bool
  err : Option String
deriving Repr

/-- Color-mapping and source-write tail of update_clusters, applied after
the labels have been obtained (from the cache or from the algorithm):
builds the color list, raising IndexError on an out-of-range label, and
if a source is configured assigns the Series of colors indexed by the
dataframe index into source.data at key color. -/
def finishUpdate (s : ClusterState) (labels : List Nat) (invoked : Bool)
    (dataIndex : List String) : UCResult :=
  match colorsOf s.labelColors labels with
  | none => ⟨s, invoked, some "IndexError"⟩
  | some colors =>
    match s.source with
    | none => ⟨s, invoked, none⟩
    | some _ => ⟨{ s with source := some ⟨colors, dataIndex⟩ }, invoked, none⟩

/-- update_clusters from cluster_controller.py: looks up the
(active algorithm id, cluster count) pair in the cache; on a hit uses the
cached labels without invoking the algorithm, on a miss invokes the
active algorithm with the data and the cluster count and stores the
labels under the pair before the color step runs. -/
def update_clusters (alg : DimValuesDF → Int → List Nat) (data : DimValuesDF)
    (s : ClusterState) : UCResult :=
  match dictFind (s.activeAlgorithmId, s.nClusters) s.clusteringDic with
  | some labels => finishUpdate s labels false data.index
  | none =>
    finishUpdate
      { s with clusteringDic :=
          ((s.activeAlgorithmId, s.nClusters), alg data s.nClusters) :: s.clusteringDic }
      (alg data s.nClusters) true data.index

/-- update_number_of_clusters from cluster_controller.py: raises
ValueError when the count is below 3, otherwise stores it.  The result
pairs the state after the call with the raised error, if any. -/
def update_number_of_clusters (n_clusters : Int) (s : ClusterState) :
    ClusterState × Option String :=
  if n_clusters < 3 then
    (s, some ("ValueError: The number of clusters must be greater than 2. Received "
              ++ toString n_clusters))
  else
    ({ s with nClusters := n_clusters }, none)

/-- get_number_of_clusters from cluster_controller.py. -/
def get_number_of_clusters (s : ClusterState) : Int :=
  s.nClusters

/-- get_classes from cluster_controller.py: subscripts the cache at the
(active algorithm id, cluster count) pair; an absent key raises KeyError. -/
def get_classes (s : ClusterState) : Except String (List Nat) :=
  match dictFind (s.activeAlgorithmId, s.nClusters) s.clusteringDic with
  | some labels => Except.ok labels
  | none => Except.error "KeyError"

/-- The labels update_clusters works with: the cached ones when the
current (active algorithm id, cluster count) pair is in the cache, the
ones the algorithm computes otherwise. -/
def labelsUsed (alg : DimValuesDF → Int → List Nat) (data : DimValuesDF)
    (s : ClusterState) : List Nat :=
  match dictFind (s.activeAlgorithmId, s.nClusters) s.clusteringDic with
  | some labels => labels
  | none => alg data s.nClusters

/-- One controller call, as far as the state is concerned, for the
sequences of claim C8. -/
inductive ClusterOp where
  | updateClusters (alg : DimValuesDF → Int → List Nat) (data : DimValuesDF)
  | updateNumberOfClusters (n : Int)
  | getNumberOfClusters
  | getClasses

/-- State reached after one controller call (the getters read only; a
raised exception keeps the mutations made before the raise point). -/
def stepCluster : ClusterOp → ClusterState → ClusterState
  | ClusterOp.updateClusters alg data, s => (update_clusters alg data s).state
  | ClusterOp.updateNumberOfClusters n, s => (update_number_of_clusters n s).1
  | ClusterOp.getNumberOfClusters, s => s
  | ClusterOp.getClasses, s => s

/-- State reached after a sequence of controller calls. -/
def runCluster : List ClusterOp → ClusterState → ClusterState
  | [], s => s
  | op :: rest, s => runCluster rest (stepCluster op s)

/-! ## Mapper controller data model -/

/-- One row of the vectors dataframe: an axis name (the pandas index
label) with the x and y coordinates of the axis endpoint. -/
structure VectorRow where
  axisId : String
  x : Int
  y : Int
deriving DecidableEq, Repr

/-- Vectors dataframe: named axes times the x, y endpoint columns. -/
structure VectorsDF where
  rows : List VectorRow
deriving DecidableEq, Repr

/-- Mapped points dataframe: the x and y columns of the 2-D projection
result, aligned by sample position. -/
structure MappedPointsDF where
  x : List Int
  y : List Int
deriving DecidableEq, Repr

/-- The shared point data source, reduced to the two columns the mapper
controller writes. -/
structure PointsSource where
  x : List Int
  y : List Int
deriving DecidableEq, Repr

/-- State of MapperController.  The animator is an external collaborator
receiving get_animation_sequence(previous, new) calls; it is modelled by
the list of argument pairs it has received so far, most recent first. -/
structure MapperState where
  dimensionValuesDf : DimValuesDF
  vectorsDf : VectorsDF
  sourcePoints : Option PointsSource
  animator : Option (List (Option MappedPointsDF × MappedPointsDF))
  lastMappedPointsDf : Option MappedPointsDF
  ignoredAxisIds : List String
deriving DecidableEq, Repr

/-- update_axis_status from mapper_controller.py: set discard of the id
when made visible, set add when hidden.  The ignored ids are a list with
set semantics: add is a no-op when the id is already there. -/
def update_axis_status (axis_id : String) (visible : Bool) (m : MapperState) :
    MapperState :=
  if visible then
    { m with ignoredAxisIds := m.ignoredAxisIds.filter (fun b => decide (b ≠ axis_id)) }
  else
    { m with ignoredAxisIds :=
        if axis_id ∈ m.ignoredAxisIds then m.ignoredAxisIds
        else axis_id :: m.ignoredAxisIds }

/-- is_axis_visible from mapper_controller.py. -/
def is_axis_visible (axis_id : String) (m : MapperState) : Bool :=
  decide (axis_id ∉ m.ignoredAxisIds)

/-- get_axis_status from mapper_controller.py. -/
def get_axis_status (m : MapperState) : List (String × Bool) :=
  m.vectorsDf.rows.map (fun r => (r.axisId, is_axis_visible r.axisId m))

/-- get_vectors from mapper_controller.py: a copy of the vectors
dataframe, with the rows of the ignored axes dropped when that set is
nonempty.  The pandas drop with its default errors=raise raises
KeyError when some label to drop is absent from the index; that error
path is modelled: the drop succeeds exactly when every ignored id
appears among the axis ids of the rows. -/
def get_vectors (m : MapperState) : Except String VectorsDF :=
  if m.ignoredAxisIds.isEmpty then Except.ok m.vectorsDf
  else if ∀ b ∈ m.ignoredAxisIds, b ∈ m.vectorsDf.rows.map VectorRow.axisId then
    Except.ok ⟨m.vectorsDf.rows.filter (fun r => decide (r.axisId ∉ m.ignoredAxisIds))⟩
  else Except.error "KeyError"

/-- get_dimension_values from mapper_controller.py: a copy of the
dimension values dataframe, with the columns of the ignored axes dropped
when that set is nonempty; as with get_vectors, dropping an ignored id
absent from the columns raises KeyError. -/
def get_dimension_values (m : MapperState) : Except String DimValuesDF :=
  if m.ignoredAxisIds.isEmpty then Except.ok m.dimensionValuesDf
  else if ∀ b ∈ m.ignoredAxisIds, b ∈ m.dimensionValuesDf.columns.map DimColumn.axisId then
    Except.ok ⟨m.dimensionValuesDf.index,
        m.dimensionValuesDf.columns.filter (fun c => decide (c.axisId ∉ m.ignoredAxisIds))⟩
  else Except.error "KeyError"

/-- get_filtered_mapping_df from mapper_controller.py: evaluates
get_dimension_values first, as the source does, so its KeyError
propagates before get_vectors runs. -/
def get_filtered_mapping_df (m : MapperState) : Except String (DimValuesDF × VectorsDF) :=
  match get_dimension_values m with
  | Except.error e => Except.error e
  | Except.ok dv =>
    match get_vectors m with
    | Except.error e => Except.error e
    | Except.ok vec => Except.ok (dv, vec)

/-- Tail of execute_mapping once the mapped points have been computed:
hands the animator the previous and the new mapped points when an
animator is configured, otherwise writes the x and y columns into the
point source when one is configured, and stores the new mapped points
as the last result. -/
def applyMappingResult (m : MapperState) (mapped_points_df : MappedPointsDF) :
    MapperState :=
  let m1 :=
    match m.animator with
    | some log =>
      { m with animator := some ((m.lastMappedPointsDf, mapped_points_df) :: log) }
    | none =>
      match m.sourcePoints with
      | some _ => { m with sourcePoints := some ⟨mapped_points_df.x, mapped_points_df.y⟩ }
      | none => m
  { m1 with lastMappedPointsDf := some mapped_points_df }

/-- execute_mapping from mapper_controller.py: runs the active mapping
algorithm on the original tables, or on the filtered ones when some
axis is ignored; a KeyError raised by the filtering (an ignored id
absent from a table) propagates before the algorithm, the animator or
the source are reached and before any state changes; otherwise the
animator or source effects are applied, the result is stored as the
last mapped points and returned. -/
def execute_mapping (alg : DimValuesDF → VectorsDF → MappedPointsDF)
    (m : MapperState) : Except String (MapperState × MappedPointsDF) :=
  match (if m.ignoredAxisIds.isEmpty
         then Except.ok (m.dimensionValuesDf, m.vectorsDf)
         else get_filtered_mapping_df m) with
  | Except.error e => Except.error e
  | Except.ok dfs =>
    Except.ok (applyMappingResult m (alg dfs.1 dfs.2), alg dfs.1 dfs.2)

/-- get_mapped_points from mapper_controller.py. -/
def get_mapped_points (m : MapperState) : Option MappedPointsDF :=
  m.lastMappedPointsDf

/-- update_dimension_values from mapper_controller.py. -/
def update_dimension_values (df : DimValuesDF) (m : MapperState) : MapperState :=
  { m with dimensionValuesDf := df }

/-- update_single_vector from mapper_controller.py: the two label-slice
assignments loc axis_id to axis_id on columns x and y set the endpoint
of every row carrying that label; the claims assume the label occurs
exactly once, where the slice selects exactly that row. -/
def update_single_vector (axis_id : String) (x1 y1 : Int) (m : MapperState) :
    MapperState :=
  { m with vectorsDf :=
      ⟨m.vectorsDf.rows.map
        (fun r => if r.axisId = axis_id then ⟨axis_id, x1, y1⟩ else r)⟩ }

/-! ## Axis generator data model

Trigonometric values are modelled with exact real numbers; the random
draws of random.randint(1, 9) are supplied by an oracle giving the
integer drawn at each loop iteration. -/

/-- math.radians. -/
noncomputable def radians (x : ℝ) : ℝ :=
  x * Real.pi / 180

/-- subdivide_circle from axisgenerator.py: for each i below n_lines,
the segment [x0, x1, y0, y1] (in that order, as the source builds it)
from the centre to the point at angle radians(i * (360 / n_lines)) at
distance r i.  The zero-snapping of the source compares the absolute
cosine and sine against the literal 0.00000000, which is zero, and is
kept exactly as written. -/
noncomputable def subdivide_circle (centre : ℝ × ℝ) (n_lines : Nat) (r : Nat → Int) :
    List (ℝ × ℝ × ℝ × ℝ) :=
  (List.range n_lines).map (fun i =>
    ((centre.1,
      centre.1 + (r i : ℝ) *
        (if |Real.cos (radians (i * (360 / (n_lines : ℝ))))| < 0 then 0
         else Real.cos (radians (i * (360 / (n_lines : ℝ))))),
      centre.2,
      centre.2 + (r i : ℝ) *
        (if |Real.sin (radians (i * (360 / (n_lines : ℝ))))| < 0 then 0
         else Real.sin (radians (i * (360 / (n_lines : ℝ)))))) : ℝ × ℝ × ℝ × ℝ))

/-- Observable behaviour of generate_star_axis: the dataframe built from
the segments with the labels as index, which the function prints, and
the value returned to the caller.  The Python function ends without a
return statement, so it returns None. -/
structure StarAxisResult where
  printed : List (String × (ℝ × ℝ × ℝ × ℝ))
  returned : Option (List (String × (ℝ × ℝ × ℝ × ℝ)))

/-- generate_star_axis from axisgenerator.py: subdivides the circle of
centre (0, 0) into as many segments as there are labels, builds the
dataframe indexed by the labels, prints it and returns None. -/
noncomputable def generate_star_axis (r : Nat → Int) (axis_labels : List String) :
    StarAxisResult :=
  { printed := axis_labels.zip (subdivide_circle (0, 0) axis_labels.length r)
    returned := none }

/-! ## Helper lemmas on the cluster controller -/

theorem finishUpdate_fields (s : ClusterState) (labels : List Nat) (inv : Bool)
    (idx : List String) :
    (finishUpdate s labels inv idx).invoked = inv
    ∧ (finishUpdate s labels inv idx).state.clusteringDic = s.clusteringDic
    ∧ (finishUpdate s labels inv idx).state.activeAlgorithmId = s.activeAlgorithmId
    ∧ (finishUpdate s labels inv idx).state.nClusters = s.nClusters
    ∧ (finishUpdate s labels inv idx).state.labelColors = s.labelColors := by
  unfold finishUpdate
  cases h : colorsOf s.labelColors labels <;> cases hs : s.source <;> simp

theorem finishUpdate_err_iff (s : ClusterState) (labels : List Nat) (inv : Bool)
    (idx : List String) :
    (finishUpdate s labels inv idx).err ≠ none
      ↔ colorsOf s.labelColors labels = none := by
  unfold finishUpdate
  cases h : colorsOf s.labelColors labels <;> cases hs : s.source <;> simp

theorem colorsOf_eq_none_iff (cols : List String) (ls : List Nat) :
    colorsOf cols ls = none ↔ ∃ i ∈ ls, cols.length ≤ i := by
  induction ls with
  | nil => simp [colorsOf]
  | cons i rest ih =>
    unfold colorsOf
    cases h : cols[i]? with
    | none =>
      have hlen : cols.length ≤ i := List.getElem?_eq_none_iff.mp h
      exact iff_of_true rfl ⟨i, List.mem_cons_self i rest, hlen⟩
    | some c =>
      have hlt : i < cols.length := by
        by_contra hge
        rw [List.getElem?_eq_none (by omega)] at h
        cases h
      cases h2 : colorsOf cols rest with
      | none =>
        obtain ⟨j, hj, hjl⟩ := ih.mp h2
        exact iff_of_true rfl ⟨j, List.mem_cons_of_mem i hj, hjl⟩
      | some cs =>
        refine iff_of_false (by simp) ?_
        rintro ⟨j, hj, hjl⟩
        rcases List.mem_cons.mp hj with hji | hjr
        · subst hji
          omega
        · exact absurd (ih.mpr ⟨j, hjr, hjl⟩) (by rw [h2]; simp)

theorem update_clusters_err_iff (alg : DimValuesDF → Int → List Nat)
    (data : DimValuesDF) (s : ClusterState) :
    (update_clusters alg data s).err ≠ none
      ↔ colorsOf s.labelColors (labelsUsed alg data s) = none := by
  unfold update_clusters labelsUsed
  cases h : dictFind (s.activeAlgorithmId, s.nClusters) s.clusteringDic with
  | some labels => exact finishUpdate_err_iff s labels false data.index
  | none =>
    exact finishUpdate_err_iff
      { s with clusteringDic :=
          ((s.activeAlgorithmId, s.nClusters), alg data s.nClusters) :: s.clusteringDic }
      (alg data s.nClusters) true data.index

theorem update_clusters_key_cached (alg : DimValuesDF → Int → List Nat)
    (data : DimValuesDF) (s : ClusterState) :
    ∃ labels,
      dictFind ((update_clusters alg data s).state.activeAlgorithmId,
                (update_clusters alg data s).state.nClusters)
        (update_clusters alg data s).state.clusteringDic = some labels := by
  unfold update_clusters
  cases h : dictFind (s.activeAlgorithmId, s.nClusters) s.clusteringDic with
  | some labels =>
    obtain ⟨-, hdic, hid, hn, -⟩ := finishUpdate_fields s labels false data.index
    exact ⟨labels, by rw [hdic, hid, hn]; exact h⟩
  | none =>
    set s1 : ClusterState :=
      { s with clusteringDic :=
          ((s.activeAlgorithmId, s.nClusters), alg data s.nClusters) :: s.clusteringDic }
      with hs1
    obtain ⟨-, hdic, hid, hn, -⟩ :=
      finishUpdate_fields s1 (alg data s.nClusters) true data.index
    refine ⟨alg data s.nClusters, ?_⟩
    rw [hdic, hid, hn, hs1]
    simp [dictFind]

theorem update_clusters_hit_invoked (alg : DimValuesDF → Int → List Nat)
    (data : DimValuesDF) (s : ClusterState) (l : List Nat)
    (h : dictFind (s.activeAlgorithmId, s.nClusters) s.clusteringDic = some l) :
    (update_clusters alg data s).invoked = false := by
  unfold update_clusters
  rw [h]
  exact (finishUpdate_fields s l false data.index).1

theorem dictFind_step_preserved (op : ClusterOp) (s : ClusterState)
    (key : String × Int) (labels : List Nat)
    (h : dictFind key s.clusteringDic = some labels) :
    dictFind key (stepCluster op s).clusteringDic = some labels := by
  cases op with
  | updateClusters alg data =>
    show dictFind key (update_clusters alg data s).state.clusteringDic = some labels
    unfold update_clusters
    cases hk : dictFind (s.activeAlgorithmId, s.nClusters) s.clusteringDic with
    | some l =>
      rw [(finishUpdate_fields s l false data.index).2.1]
      exact h
    | none =>
      rw [(finishUpdate_fields _ (alg data s.nClusters) true data.index).2.1]
      have hne : (s.activeAlgorithmId, s.nClusters) ≠ key := by
        intro heq
        rw [heq, h] at hk
        cases hk
      show dictFind key (((s.activeAlgorithmId, s.nClusters), alg data s.nClusters)
            :: s.clusteringDic) = some labels
      unfold dictFind
      rw [if_neg hne]
      exact h
  | updateNumberOfClusters n =>
    show dictFind key (update_number_of_clusters n s).1.clusteringDic = some labels
    unfold update_number_of_clusters
    by_cases hn : n < 3 <;> simp [hn] <;> exact h
  | getNumberOfClusters => exact h
  | getClasses => exact h

/-! ## Theorems on the cluster controller -/

/-- C1: update_number_of_clusters(n) raises a ValueError if and only if
n is below 3; for every n at least 3 it succeeds and sets the stored
cluster count to n, leaving every other field unchanged; and when it
raises the whole state, in particular the stored cluster count, is
unchanged. -/
theorem update_number_of_clusters_spec (n : Int) (s : ClusterState) :
    ((update_number_of_clusters n s).2 ≠ none ↔ n < 3)
    ∧ (3 ≤ n → update_number_of_clusters n s
        = ({ s with nClusters := n }, none))
    ∧ (n < 3 → (update_number_of_clusters n s).1 = s
        ∧ (update_number_of_clusters n s).1.nClusters = s.nClusters) := by
  unfold update_number_of_clusters
  by_cases h : n < 3
  · simp [h]
  · simp [h, not_lt.mp h]

/-- Witness for C1 at n = 3 (succeeds, sets the count) and n = 2 (raises,
count unchanged) on a concrete state. -/
theorem update_number_of_clusters_spec_witness :
    (update_number_of_clusters 3 ⟨"dummy", [], DEFAULT_LABEL_COLORS, none, 4⟩
      = (⟨"dummy", [], DEFAULT_LABEL_COLORS, none, 3⟩, none))
    ∧ (update_number_of_clusters 2 ⟨"dummy", [], DEFAULT_LABEL_COLORS, none, 4⟩).1
      = ⟨"dummy", [], DEFAULT_LABEL_COLORS, none, 4⟩ :=
  ⟨(update_number_of_clusters_spec 3 ⟨"dummy", [], DEFAULT_LABEL_COLORS, none, 4⟩).2.1
      (by norm_num),
   ((update_number_of_clusters_spec 2 ⟨"dummy", [], DEFAULT_LABEL_COLORS, none, 4⟩).2.2
      (by norm_num)).1⟩

/-- C2: when the clustering cache already holds an entry for the current
(active algorithm id, cluster count) pair, update_clusters does not
invoke the algorithm: it proceeds with the cached labels (the call is
exactly the color-mapping tail on the cached labels, so it does not
depend on the algorithm argument at all) and leaves the cache unchanged;
consequently a second update_clusters call after any first one never
invokes the algorithm, whatever data it is given. -/
theorem update_clusters_cache_hit_spec
    (alg alg2 : DimValuesDF → Int → List Nat) (data : DimValuesDF)
    (s : ClusterState) (cached : List Nat)
    (hit : dictFind (s.activeAlgorithmId, s.nClusters) s.clusteringDic = some cached) :
    update_clusters alg data s = finishUpdate s cached false data.index
    ∧ (update_clusters alg data s).invoked = false
    ∧ (update_clusters alg data s).state.clusteringDic = s.clusteringDic
    ∧ update_clusters alg data s = update_clusters alg2 data s
    ∧ ∀ (alg0 alg1 : DimValuesDF → Int → List Nat) (data0 data1 : DimValuesDF)
        (s0 : ClusterState),
        (update_clusters alg1 data1 (update_clusters alg0 data0 s0).state).invoked
          = false := by
  have h1 : update_clusters alg data s = finishUpdate s cached false data.index := by
    unfold update_clusters
    rw [hit]
  have h2 : update_clusters alg2 data s = finishUpdate s cached false data.index := by
    unfold update_clusters
    rw [hit]
  refine ⟨h1, ?_, ?_, h1.trans h2.symm, ?_⟩
  · rw [h1]
    exact (finishUpdate_fields s cached false data.index).1
  · rw [h1]
    exact (finishUpdate_fields s cached false data.index).2.1
  · intro alg0 alg1 data0 data1 s0
    obtain ⟨l, hl⟩ := update_clusters_key_cached alg0 data0 s0
    exact update_clusters_hit_invoked alg1 data1 _ l hl

/-- Witness for C2: a state whose cache holds the current key, on which
update_clusters reports that the algorithm was not invoked. -/
theorem update_clusters_cache_hit_spec_witness :
    (update_clusters (fun _ _ => [2, 2]) ⟨["p0", "p1"], []⟩
      ⟨"dummy", [(("dummy", 4), [0, 1])], DEFAULT_LABEL_COLORS, none, 4⟩).invoked
      = false :=
  (update_clusters_cache_hit_spec (fun _ _ => [2, 2]) (fun _ _ => [3, 3])
    ⟨["p0", "p1"], []⟩
    ⟨"dummy", [(("dummy", 4), [0, 1])], DEFAULT_LABEL_COLORS, none, 4⟩ [0, 1]
    (by decide)).2.1

/-- C8: no controller operation ever removes or overwrites a clustering
cache entry: along any sequence of update_clusters,
update_number_of_clusters, get_number_of_clusters and get_classes calls,
once the cache maps a (algorithm id, cluster count) pair to some labels
it keeps mapping that pair to those labels. -/
theorem clustering_cache_monotone (ops : List ClusterOp) (s : ClusterState)
    (key : String × Int) (labels : List Nat)
    (h : dictFind key s.clusteringDic = some labels) :
    dictFind key (runCluster ops s).clusteringDic = some labels := by
  induction ops generalizing s with
  | nil => exact h
  | cons op rest ih =>
    exact ih (stepCluster op s) (dictFind_step_preserved op s key labels h)

/-- Witness for C8: a sequence changing the cluster count and clustering
under the new key keeps the original cache entry intact. -/
theorem clustering_cache_monotone_witness :
    dictFind ("dummy", 4)
      (runCluster
        [ClusterOp.updateNumberOfClusters 5,
         ClusterOp.updateClusters (fun _ _ => [0, 1]) ⟨["p0", "p1"], []⟩,
         ClusterOp.getClasses]
        ⟨"dummy", [(("dummy", 4), [0, 1, 2])], DEFAULT_LABEL_COLORS, none, 4⟩).clusteringDic
      = some [0, 1, 2] :=
  clustering_cache_monotone
    [ClusterOp.updateNumberOfClusters 5,
     ClusterOp.updateClusters (fun _ _ => [0, 1]) ⟨["p0", "p1"], []⟩,
     ClusterOp.getClasses]
    ⟨"dummy", [(("dummy", 4), [0, 1, 2])], DEFAULT_LABEL_COLORS, none, 4⟩
    ("dummy", 4) [0, 1, 2] (by decide)

/-- C10: with the default 7-color palette, update_clusters raises an
index-out-of-range error exactly when the labels it works with (cached
or freshly computed) contain a value of at least 7, and succeeds exactly
when every such label is strictly below 7, the palette length. -/
theorem update_clusters_palette_bound (alg : DimValuesDF → Int → List Nat)
    (data : DimValuesDF) (s : ClusterState)
    (hpal : s.labelColors = DEFAULT_LABEL_COLORS) :
    ((update_clusters alg data s).err ≠ none
      ↔ ∃ l ∈ labelsUsed alg data s, 7 ≤ l)
    ∧ ((update_clusters alg data s).err = none
      ↔ ∀ l ∈ labelsUsed alg data s, l < 7) := by
  have hlen : s.labelColors.length = 7 := by rw [hpal]; rfl
  have h1 := update_clusters_err_iff alg data s
  rw [colorsOf_eq_none_iff, hlen] at h1
  refine ⟨h1, ?_, ?_⟩
  · intro he l hl
    by_contra hge
    exact (h1.mpr ⟨l, hl, by omega⟩) he
  · intro hall
    by_contra hne
    obtain ⟨l, hl, h7⟩ := h1.mp hne
    exact absurd (hall l hl) (by omega)

/-- Witness for C10: with the default palette and an algorithm producing
the label 7, update_clusters raises. -/
theorem update_clusters_palette_bound_witness :
    (update_clusters (fun _ _ => [0, 7]) ⟨["p0", "p1"], []⟩
      ⟨"dummy", [], DEFAULT_LABEL_COLORS, none, 4⟩).err ≠ none :=
  (update_clusters_palette_bound (fun _ _ => [0, 7]) ⟨["p0", "p1"], []⟩
    ⟨"dummy", [], DEFAULT_LABEL_COLORS, none, 4⟩ rfl).1.mpr
    ⟨7, by decide, by decide⟩

/-- C5: get_classes fails with a KeyError if and only if the cache has no
entry for the current (active algorithm id, cluster count) pair, and
otherwise returns exactly the cached labels for that pair (the state is
untouched: get_classes is a pure read). -/
theorem get_classes_spec (s : ClusterState) :
    (get_classes s = Except.error "KeyError"
      ↔ dictFind (s.activeAlgorithmId, s.nClusters) s.clusteringDic = none)
    ∧ ∀ labels, dictFind (s.activeAlgorithmId, s.nClusters) s.clusteringDic = some labels
        → get_classes s = Except.ok labels := by
  unfold get_classes
  cases h : dictFind (s.activeAlgorithmId, s.nClusters) s.clusteringDic <;> simp

/-- Witness for C5: on a state whose cache holds the current key the
labels come back, and after changing the cluster count the lookup fails. -/
theorem get_classes_spec_witness :
    get_classes ⟨"dummy", [(("dummy", 4), [0, 1, 2])], DEFAULT_LABEL_COLORS, none, 4⟩
      = Except.ok [0, 1, 2]
    ∧ get_classes ⟨"dummy", [(("dummy", 4), [0, 1, 2])], DEFAULT_LABEL_COLORS, none, 5⟩
      = Except.error "KeyError" :=
  ⟨(get_classes_spec ⟨"dummy", [(("dummy", 4), [0, 1, 2])], DEFAULT_LABEL_COLORS, none, 4⟩).2
      [0, 1, 2] (by decide),
   (get_classes_spec ⟨"dummy", [(("dummy", 4), [0, 1, 2])], DEFAULT_LABEL_COLORS, none, 5⟩).1.mpr
      (by decide)⟩

/-! ## Helper lemmas on the mapper controller -/

theorem applyMappingResult_spec (m : MapperState) (mp : MappedPointsDF) :
    (∀ log, m.animator = some log →
      (applyMappingResult m mp).animator = some ((m.lastMappedPointsDf, mp) :: log)
      ∧ (applyMappingResult m mp).sourcePoints = m.sourcePoints)
    ∧ (m.animator = none → ∀ src, m.sourcePoints = some src →
        (applyMappingResult m mp).sourcePoints = some ⟨mp.x, mp.y⟩)
    ∧ (applyMappingResult m mp).lastMappedPointsDf = some mp := by
  refine ⟨?_, ?_, rfl⟩
  · intro log hlog
    constructor <;> simp [applyMappingResult, hlog]
  · intro han src hsrc
    simp [applyMappingResult, han, hsrc]

theorem execute_mapping_ok_shape (alg : DimValuesDF → VectorsDF → MappedPointsDF)
    (m : MapperState) (m1 : MapperState) (res : MappedPointsDF)
    (h : execute_mapping alg m = Except.ok (m1, res)) :
    m1 = applyMappingResult m res := by
  unfold execute_mapping at h
  cases hgf : (if m.ignoredAxisIds.isEmpty
      then Except.ok (m.dimensionValuesDf, m.vectorsDf)
      else get_filtered_mapping_df m) with
  | error e =>
    rw [hgf] at h
    cases h
  | ok dfs =>
    rw [hgf] at h
    simp only [Except.ok.injEq, Prod.mk.injEq] at h
    obtain ⟨h1, h2⟩ := h
    subst h2
    exact h1.symm

/-! ## Theorems on the mapper controller -/

/-- C3: hiding an axis that appears in both tables makes both getters
succeed with the axis removed — absent from the rows of get_vectors and
from the columns of get_dimension_values; re-showing it restores both
getters to the unfiltered originals; and neither hiding, re-showing nor
the getters mutate the stored tables. -/
theorem update_axis_status_hide_show_spec (m : MapperState) (a : String)
    (hmem : a ∈ m.vectorsDf.rows.map VectorRow.axisId
      ∧ a ∈ m.dimensionValuesDf.columns.map DimColumn.axisId)
    (hnone : m.ignoredAxisIds = []) :
    (∃ vdf, get_vectors (update_axis_status a false m) = Except.ok vdf
      ∧ a ∉ vdf.rows.map VectorRow.axisId)
    ∧ (∃ ddf, get_dimension_values (update_axis_status a false m) = Except.ok ddf
      ∧ a ∉ ddf.columns.map DimColumn.axisId)
    ∧ get_vectors (update_axis_status a true (update_axis_status a false m))
        = Except.ok m.vectorsDf
    ∧ get_dimension_values (update_axis_status a true (update_axis_status a false m))
        = Except.ok m.dimensionValuesDf
    ∧ (update_axis_status a false m).vectorsDf = m.vectorsDf
    ∧ (update_axis_status a false m).dimensionValuesDf = m.dimensionValuesDf
    ∧ (update_axis_status a true (update_axis_status a false m)).vectorsDf
        = m.vectorsDf
    ∧ (update_axis_status a true (update_axis_status a false m)).dimensionValuesDf
        = m.dimensionValuesDf := by
  have hHide : update_axis_status a false m = { m with ignoredAxisIds := [a] } := by
    simp [update_axis_status, hnone]
  have hShow : update_axis_status a true { m with ignoredAxisIds := [a] }
      = { m with ignoredAxisIds := [] } := by
    simp [update_axis_status]
  rw [hHide, hShow]
  refine ⟨?_, ?_, ?_, ?_, rfl, rfl, rfl, rfl⟩
  · have hv : ∃ x ∈ m.vectorsDf.rows, x.axisId = a := by
      simpa using hmem.1
    have hcv : get_vectors { m with ignoredAxisIds := [a] }
        = Except.ok ⟨m.vectorsDf.rows.filter
            (fun r => decide (r.axisId ∉ ([a] : List String)))⟩ := by
      simp [get_vectors, hv]
    exact ⟨_, hcv, by simp [List.mem_filter]⟩
  · have hd : ∃ x ∈ m.dimensionValuesDf.columns, x.axisId = a := by
      simpa using hmem.2
    have hcd : get_dimension_values { m with ignoredAxisIds := [a] }
        = Except.ok ⟨m.dimensionValuesDf.index,
            m.dimensionValuesDf.columns.filter
              (fun c => decide (c.axisId ∉ ([a] : List String)))⟩ := by
      simp [get_dimension_values, hd]
    exact ⟨_, hcd, by simp [List.mem_filter]⟩
  · simp [get_vectors]
  · simp [get_dimension_values]

/-- Witness for C3 on a two-axis state: hiding ax1 makes get_vectors
succeed without it, re-showing it restores the original vectors. -/
theorem update_axis_status_hide_show_spec_witness :
    (∃ vdf, get_vectors (update_axis_status "ax1" false
        ⟨⟨["p0"], [⟨"ax1", [5]⟩, ⟨"ax2", [6]⟩]⟩,
         ⟨[⟨"ax1", 1, 2⟩, ⟨"ax2", 3, 4⟩]⟩, none, none, none, []⟩) = Except.ok vdf
      ∧ "ax1" ∉ vdf.rows.map VectorRow.axisId)
    ∧ get_vectors (update_axis_status "ax1" true (update_axis_status "ax1" false
        ⟨⟨["p0"], [⟨"ax1", [5]⟩, ⟨"ax2", [6]⟩]⟩,
         ⟨[⟨"ax1", 1, 2⟩, ⟨"ax2", 3, 4⟩]⟩, none, none, none, []⟩))
      = Except.ok ⟨[⟨"ax1", 1, 2⟩, ⟨"ax2", 3, 4⟩]⟩ := by
  have h := update_axis_status_hide_show_spec
    ⟨⟨["p0"], [⟨"ax1", [5]⟩, ⟨"ax2", [6]⟩]⟩,
     ⟨[⟨"ax1", 1, 2⟩, ⟨"ax2", 3, 4⟩]⟩, none, none, none, []⟩ "ax1"
    ⟨by decide, by decide⟩ rfl
  exact ⟨h.1, h.2.2.1⟩

/-- C6 counterexample: on a state whose hidden set holds an id absent
from the tables, execute_mapping raises the KeyError of the pandas drop
and returns no mapped points at all, so the claim over every state
fails. -/
theorem execute_mapping_ghost_axis_fails :
    execute_mapping (fun _ _ => ⟨[1], [2]⟩)
      ⟨⟨["p0"], [⟨"ax1", [5]⟩]⟩, ⟨[⟨"ax1", 1, 2⟩]⟩, none, none, none, ["ghost"]⟩
      = Except.error "KeyError" := rfl

/-- C6 amended: whenever the filtered getters succeed — every hidden
axis appears in the tables — execute_mapping invokes the active mapping
algorithm on exactly the tables get_dimension_values and get_vectors
return, returns the resulting mapped points, and afterwards
get_mapped_points returns that same result; when the filtering fails
because a hidden id is absent, execute_mapping propagates the same
KeyError and returns no mapped points. -/
theorem execute_mapping_spec (alg : DimValuesDF → VectorsDF → MappedPointsDF)
    (m : MapperState) :
    (∀ dv vec, get_dimension_values m = Except.ok dv → get_vectors m = Except.ok vec →
      execute_mapping alg m
          = Except.ok (applyMappingResult m (alg dv vec), alg dv vec)
        ∧ get_mapped_points (applyMappingResult m (alg dv vec)) = some (alg dv vec))
    ∧ (∀ e, get_filtered_mapping_df m = Except.error e →
        execute_mapping alg m = Except.error e) := by
  constructor
  · intro dv vec hdv hvec
    by_cases hi : m.ignoredAxisIds.isEmpty
    · have hdv2 : m.dimensionValuesDf = dv := by
        simpa [get_dimension_values, hi] using hdv
      have hvec2 : m.vectorsDf = vec := by
        simpa [get_vectors, hi] using hvec
      subst hdv2
      subst hvec2
      exact ⟨by simp [execute_mapping, hi], rfl⟩
    · have hgf : get_filtered_mapping_df m = Except.ok (dv, vec) := by
        unfold get_filtered_mapping_df
        rw [hdv, hvec]
      exact ⟨by simp [execute_mapping, hi, hgf], rfl⟩
  · intro e he
    by_cases hi : m.ignoredAxisIds.isEmpty
    · have hok : get_filtered_mapping_df m
          = Except.ok (m.dimensionValuesDf, m.vectorsDf) := by
        unfold get_filtered_mapping_df
        simp [get_dimension_values, get_vectors, hi]
      rw [hok] at he
      cases he
    · simp [execute_mapping, hi, he]

/-- Witness for C6 amended on a state hiding the present axis ax1: the
call succeeds with the algorithm applied to the filtered tables and
get_mapped_points afterwards returns the result. -/
theorem execute_mapping_spec_witness :
    execute_mapping (fun _ _ => ⟨[1], [2]⟩)
        ⟨⟨["p0"], [⟨"ax1", [5]⟩, ⟨"ax2", [6]⟩]⟩,
         ⟨[⟨"ax1", 1, 2⟩, ⟨"ax2", 3, 4⟩]⟩, none, none, none, ["ax1"]⟩
      = Except.ok
          (applyMappingResult
            ⟨⟨["p0"], [⟨"ax1", [5]⟩, ⟨"ax2", [6]⟩]⟩,
             ⟨[⟨"ax1", 1, 2⟩, ⟨"ax2", 3, 4⟩]⟩, none, none, none, ["ax1"]⟩ ⟨[1], [2]⟩,
           ⟨[1], [2]⟩)
    ∧ get_mapped_points
        (applyMappingResult
          ⟨⟨["p0"], [⟨"ax1", [5]⟩, ⟨"ax2", [6]⟩]⟩,
           ⟨[⟨"ax1", 1, 2⟩, ⟨"ax2", 3, 4⟩]⟩, none, none, none, ["ax1"]⟩ ⟨[1], [2]⟩)
      = some ⟨[1], [2]⟩ :=
  (execute_mapping_spec (fun _ _ => ⟨[1], [2]⟩)
      ⟨⟨["p0"], [⟨"ax1", [5]⟩, ⟨"ax2", [6]⟩]⟩,
       ⟨[⟨"ax1", 1, 2⟩, ⟨"ax2", 3, 4⟩]⟩, none, none, none, ["ax1"]⟩).1
    ⟨["p0"], [⟨"ax2", [6]⟩]⟩ ⟨[⟨"ax2", 3, 4⟩]⟩ rfl rfl

/-- C7 counterexample: with an animator configured but a hidden id
absent from the tables, execute_mapping raises the drop KeyError before
reaching the animator code, so the animator is never handed the pair. -/
theorem execute_mapping_ghost_axis_animator_unreached :
    execute_mapping (fun _ _ => ⟨[1], [2]⟩)
      ⟨⟨["p0"], [⟨"ax1", [5]⟩]⟩, ⟨[⟨"ax1", 1, 2⟩]⟩, some ⟨[0], [0]⟩, some [], none,
       ["ghost"]⟩
      = Except.error "KeyError" := rfl

/-- C7 amended: whenever execute_mapping completes normally (the
filtering raised no KeyError), if an animator is configured it receives
the previous and the new mapped points and the point source is left
unchanged; when no animator but a point source is configured, the x and
y columns of the new mapped points are written into the source. -/
theorem execute_mapping_animator_source_spec
    (alg : DimValuesDF → VectorsDF → MappedPointsDF) (m : MapperState) :
    ∀ m1 res, execute_mapping alg m = Except.ok (m1, res) →
      (∀ log, m.animator = some log →
        m1.animator = some ((m.lastMappedPointsDf, res) :: log)
        ∧ m1.sourcePoints = m.sourcePoints)
      ∧ (m.animator = none → ∀ src, m.sourcePoints = some src →
          m1.sourcePoints = some ⟨res.x, res.y⟩) := by
  intro m1 res h
  have hshape : m1 = applyMappingResult m res := execute_mapping_ok_shape alg m m1 res h
  subst hshape
  exact ⟨(applyMappingResult_spec m res).1, (applyMappingResult_spec m res).2.1⟩

/-- Witness for C7 amended: with an animator and a source configured
the animator receives the pair and the source is untouched; with only a
source configured the new columns are written into it. -/
theorem execute_mapping_animator_source_spec_witness :
    ((applyMappingResult ⟨⟨["p0"], []⟩, ⟨[]⟩, some ⟨[0], [0]⟩, some [], none, []⟩
        ⟨[1], [2]⟩).animator = some [((none : Option MappedPointsDF), ⟨[1], [2]⟩)]
     ∧ (applyMappingResult ⟨⟨["p0"], []⟩, ⟨[]⟩, some ⟨[0], [0]⟩, some [], none, []⟩
        ⟨[1], [2]⟩).sourcePoints = some ⟨[0], [0]⟩)
    ∧ (applyMappingResult ⟨⟨["p0"], []⟩, ⟨[]⟩, some ⟨[0], [0]⟩, none, none, []⟩
        ⟨[1], [2]⟩).sourcePoints = some ⟨[1], [2]⟩ := by
  refine ⟨?_, ?_⟩
  · have h := execute_mapping_animator_source_spec (fun _ _ => ⟨[1], [2]⟩)
      ⟨⟨["p0"], []⟩, ⟨[]⟩, some ⟨[0], [0]⟩, some [], none, []⟩
      (applyMappingResult ⟨⟨["p0"], []⟩, ⟨[]⟩, some ⟨[0], [0]⟩, some [], none, []⟩
        ⟨[1], [2]⟩)
      ⟨[1], [2]⟩ rfl
    exact ⟨(h.1 [] rfl).1, (h.1 [] rfl).2⟩
  · exact (execute_mapping_animator_source_spec (fun _ _ => ⟨[1], [2]⟩)
      ⟨⟨["p0"], []⟩, ⟨[]⟩, some ⟨[0], [0]⟩, none, none, []⟩
      (applyMappingResult ⟨⟨["p0"], []⟩, ⟨[]⟩, some ⟨[0], [0]⟩, none, none, []⟩
        ⟨[1], [2]⟩)
      ⟨[1], [2]⟩ rfl).2 rfl ⟨[0], [0]⟩ rfl

/-- C9: when the axis id occurs exactly once in the vectors index,
update_single_vector rewrites that row to the new endpoint and leaves
every other row, the dimension values, the ignored set, the point
source and the last mapped points unchanged (positionally, every row
whose id differs from the target is exactly preserved). -/
theorem update_single_vector_spec (m : MapperState) (a : String) (x1 y1 : Int)
    (huniq : m.vectorsDf.rows.countP (fun r => r.axisId == a) = 1) :
    (update_single_vector a x1 y1 m).vectorsDf.rows.length = m.vectorsDf.rows.length
    ∧ (∃ r ∈ (update_single_vector a x1 y1 m).vectorsDf.rows, r = VectorRow.mk a x1 y1)
    ∧ (∀ (i : Nat) (r0 : VectorRow), m.vectorsDf.rows[i]? = some r0 → r0.axisId = a →
        (update_single_vector a x1 y1 m).vectorsDf.rows[i]?
          = some (VectorRow.mk a x1 y1))
    ∧ (∀ (i : Nat) (r0 : VectorRow), m.vectorsDf.rows[i]? = some r0 → r0.axisId ≠ a →
        (update_single_vector a x1 y1 m).vectorsDf.rows[i]? = some r0)
    ∧ (update_single_vector a x1 y1 m).dimensionValuesDf = m.dimensionValuesDf
    ∧ (update_single_vector a x1 y1 m).ignoredAxisIds = m.ignoredAxisIds
    ∧ (update_single_vector a x1 y1 m).sourcePoints = m.sourcePoints
    ∧ (update_single_vector a x1 y1 m).lastMappedPointsDf = m.lastMappedPointsDf := by
  refine ⟨by simp [update_single_vector], ?_, ?_, ?_, rfl, rfl, rfl, rfl⟩
  · have hpos : 0 < m.vectorsDf.rows.countP (fun r => r.axisId == a) := by omega
    obtain ⟨r0, hr0, hra⟩ := List.countP_pos_iff.mp hpos
    have heq : r0.axisId = a := beq_iff_eq.mp hra
    refine ⟨VectorRow.mk a x1 y1, ?_, rfl⟩
    show VectorRow.mk a x1 y1 ∈ (update_single_vector a x1 y1 m).vectorsDf.rows
    unfold update_single_vector
    exact List.mem_map.mpr ⟨r0, hr0, by simp [heq]⟩
  · intro i r0 h hra
    simp [update_single_vector, List.getElem?_map, h, hra]
  · intro i r0 h hra
    simp [update_single_vector, List.getElem?_map, h, hra]

/-- Witness for C9 on a two-row vectors table: the targeted row gets the
new endpoint, the other row is preserved at its position. -/
theorem update_single_vector_spec_witness :
    (∃ r ∈ (update_single_vector "ax1" 7 8
        ⟨⟨["p0"], []⟩, ⟨[⟨"ax1", 0, 0⟩, ⟨"ax2", 1, 1⟩]⟩, none, none, none, []⟩).vectorsDf.rows,
      r = VectorRow.mk "ax1" 7 8)
    ∧ (update_single_vector "ax1" 7 8
        ⟨⟨["p0"], []⟩, ⟨[⟨"ax1", 0, 0⟩, ⟨"ax2", 1, 1⟩]⟩, none, none, none, []⟩).vectorsDf.rows[1]?
      = some (VectorRow.mk "ax2" 1 1) := by
  have h := update_single_vector_spec
    ⟨⟨["p0"], []⟩, ⟨[⟨"ax1", 0, 0⟩, ⟨"ax2", 1, 1⟩]⟩, none, none, none, []⟩
    "ax1" 7 8 (by decide)
  exact ⟨h.2.1, h.2.2.2.1 1 (VectorRow.mk "ax2" 1 1) (by decide) (by decide)⟩

/-! ## Theorems on the axis generator -/

theorem snap_eq (x : ℝ) : (if |x| < (0 : ℝ) then (0 : ℝ) else x) = x :=
  if_neg (not_lt.mpr (abs_nonneg x))

/-- C4 counterexample: the Python generate_star_axis prints the
dataframe and ends without a return statement, so it returns None and
in particular does not return the 4 segments at the input of the claim. -/
theorem generate_star_axis_returns_none :
    (generate_star_axis (fun _ => 5) ["a", "b", "c", "d"]).returned = none := rfl

/-- C4 amended: for every list of N labels, the dataframe
generate_star_axis prints (rather than returns) has N rows; row i pairs
label i with a segment whose first endpoint is the centre (0, 0) and
whose second endpoint lies at angle i times 360 / N degrees at an
integer distance between 1 and 9 drawn by the oracle; in particular on
labels a, b, c, d the four printed segments all start at (0, 0) and lie
at angles of 0, 90, 180 and 270 degrees. -/
theorem generate_star_axis_printed_spec (r : Nat → Int) (labels : List String)
    (hr : ∀ i, 1 ≤ r i ∧ r i ≤ 9) :
    (generate_star_axis r labels).printed.length = labels.length
    ∧ (∀ i (hi : i < labels.length),
        ∃ radius : Int, 1 ≤ radius ∧ radius ≤ 9 ∧
          (generate_star_axis r labels).printed[i]?
            = some (labels.get ⟨i, hi⟩,
                (0, (radius : ℝ) * Real.cos (radians (i * (360 / (labels.length : ℝ)))),
                 0, (radius : ℝ) * Real.sin (radians (i * (360 / (labels.length : ℝ)))))))
    ∧ (generate_star_axis r ["a", "b", "c", "d"]).printed
        = [("a", ((0 : ℝ), (r 0 : ℝ), 0, 0)),
           ("b", ((0 : ℝ), 0, 0, (r 1 : ℝ))),
           ("c", ((0 : ℝ), -(r 2 : ℝ), 0, 0)),
           ("d", ((0 : ℝ), 0, 0, -(r 3 : ℝ)))] := by
  refine ⟨?_, ?_, ?_⟩
  · simp [generate_star_axis, subdivide_circle]
  · intro i hi
    refine ⟨r i, (hr i).1, (hr i).2, ?_⟩
    have hlab : labels[i]? = some (labels.get ⟨i, hi⟩) := by
      rw [List.getElem?_eq_getElem hi]
      simp
    have hseg : (subdivide_circle (0, 0) labels.length r)[i]?
        = some (0, (r i : ℝ) * Real.cos (radians (i * (360 / (labels.length : ℝ)))),
                0, (r i : ℝ) * Real.sin (radians (i * (360 / (labels.length : ℝ))))) := by
      unfold subdivide_circle
      rw [List.getElem?_map, List.getElem?_range hi]
      simp [snap_eq]
    rw [show (generate_star_axis r labels).printed
        = labels.zip (subdivide_circle (0, 0) labels.length r) from rfl]
    rw [List.getElem?_zip_eq_some]
    exact ⟨hlab, hseg⟩
  · have h90 : ((1 : ℕ) : ℝ) * (360 / ((4 : ℕ) : ℝ)) * Real.pi / 180 = Real.pi / 2 := by
      push_cast
      ring
    have h180 : ((2 : ℕ) : ℝ) * (360 / ((4 : ℕ) : ℝ)) * Real.pi / 180 = Real.pi := by
      push_cast
      ring
    have h270 : ((3 : ℕ) : ℝ) * (360 / ((4 : ℕ) : ℝ)) * Real.pi / 180
        = Real.pi + Real.pi / 2 := by
      push_cast
      ring
    simp [generate_star_axis, subdivide_circle, List.range_succ, snap_eq, radians,
      h90, h180, h270, Real.cos_add, Real.sin_add]
    ring_nf
    have hc2 : Real.cos (Real.pi * 2⁻¹) = 0 := by
      rw [show Real.pi * 2⁻¹ = Real.pi / 2 by ring]
      exact Real.cos_pi_div_two
    have hs2 : Real.sin (Real.pi * 2⁻¹) = 1 := by
      rw [show Real.pi * 2⁻¹ = Real.pi / 2 by ring]
      exact Real.sin_pi_div_two
    have hc32 : Real.cos (Real.pi * (3 / 2)) = 0 := by
      rw [show Real.pi * (3 / 2) = Real.pi + Real.pi / 2 by ring]
      simp [Real.cos_add]
    have hs32 : Real.sin (Real.pi * (3 / 2)) = -1 := by
      rw [show Real.pi * (3 / 2) = Real.pi + Real.pi / 2 by ring]
      simp [Real.sin_add]
    simp [hc2, hs2, hc32, hs32]

/-- Witness for C4 amended: with every draw equal to 5 the four printed
segments are fully determined. -/
theorem generate_star_axis_printed_spec_witness :
    (generate_star_axis (fun _ => 5) ["a", "b", "c", "d"]).printed
      = [("a", ((0 : ℝ), ((5 : ℤ) : ℝ), 0, 0)),
         ("b", ((0 : ℝ), 0, 0, ((5 : ℤ) : ℝ))),
         ("c", ((0 : ℝ), -((5 : ℤ) : ℝ), 0, 0)),
         ("d", ((0 : ℝ), 0, 0, -((5 : ℤ) : ℝ)))] :=
  (generate_star_axis_printed_spec (fun _ => 5) ["a", "b", "c", "d"]
    (fun _ => ⟨by norm_num, by norm_num⟩)).2.2
